import Mathlib

/-!
# QtCollider `QWidgetProxy`

A shallow embedding of `src/QtCollider/QWidgetProxy.cpp`: the proxy that sits
between a toolkit widget and an interpreter object.  Pointers are addresses
(`Option Nat`, `none` being the null pointer), the toolkit state the methods
read and write is passed explicitly, and what the toolkit or the base class
`QObjectProxy` computes is taken as a parameter.
-/

namespace QtCollider

/-! ## Data model -/

/-- Nullable pointer to a toolkit object: `none` is the null pointer. -/
abbrev Ptr := Option Nat

/-- A `QString`, as its sequence of UTF-16 code units. -/
abbrev QString := List Nat

/-- A point with integer coordinates. -/
structure QPoint where
  x : Int
  y : Int
deriving DecidableEq, Repr

/-- The values of `QEvent::Type` that the file names; `other n` is every other
value, `Event_Refresh` the custom type `QtCollider::Event_Refresh`. -/
inductive QEventType where
  | MouseButtonPress
  | MouseMove
  | MouseButtonRelease
  | MouseButtonDblClick
  | Enter
  | DragEnter
  | DragMove
  | Drop
  | KeyPress
  | KeyRelease
  | Event_Refresh
  | other (n : Nat)
deriving DecidableEq, Repr

/-- The values a `QVariant` of an argument list holds in this file. -/
inductive QVariant where
  | int (i : Int)
  | string (s : QString)
deriving DecidableEq, Repr

/-- The constant `Qt::LeftButton`. -/
def Qt.LeftButton : Nat := 1
/-- The constant `Qt::RightButton`. -/
def Qt.RightButton : Nat := 2
/-- The constant `Qt::MidButton`. -/
def Qt.MidButton : Nat := 4

/-- An event as the file reads it: the type tag, the accepted flag, and the
fields of the subclasses the code casts to (`QMouseEvent`: `pos`, `modifiers`,
`button`; `QKeyEvent`: `text`, `modifiers`, `key`; `QDropEvent`: `pos` and the
formats of `mimeData()`).  A field is read only after the matching cast; an
`Enter` event is a plain `QEvent`, for which no subclass field is read. -/
structure QEvent where
  type : QEventType
  accepted : Bool
  pos : QPoint
  modifiers : Int
  button : Nat
  text : QString
  key : Int
  mimeFormats : List String
deriving DecidableEq, Repr

/-- A node of the toolkit's object tree, as `sendRefreshEventRecursive` walks
it: address, `isWidgetType()`, `children()`. -/
inductive QObjectTree where
  | node (id : Nat) (isWidgetType : Bool) (children : List QObjectTree)

/-- The state of a live widget. -/
structure QWidget where
  id : Nat
  windowFlags : Nat
  windowState : Nat
  pos : QPoint
  visible : Bool
  focus : Bool
  parent : Ptr
  layout : Ptr
  children : List QObjectTree

/-- Toolkit calls whose effect is recorded as a trace. -/
inductive Call where
  | sendEvent (receiver : Nat) (type : QEventType)
  | raise (w : Nat)
  | setFocus (w : Nat) (reason : Nat)
  | clearFocus (w : Nat)
  | deleteLayout (l : Nat)
  | setLayout (w : Nat) (l : Nat)
  | activate (l : Nat)
  | invokeMethod (receiver : Nat) (method : String) (arg : Nat)
  | setParent (w : Nat) (parent : Nat)
  | dragExec (source : Nat) (mimeFormats : List String) (pixmapSize : QPoint) (hotSpot : QPoint)
deriving DecidableEq, Repr

/-- The proxy (`qObject` of the base class, `_keyEventWidget`,
`_mouseEventWidget`) with the toolkit state its methods act on: the state of the
widget `qObject` points to (`none` once the widget has been destroyed), the
widgets on which the proxy is installed as an event filter by this file, and
the trace of toolkit calls. -/
structure QWidgetProxy where
  qObject : Option QWidget
  _keyEventWidget : Ptr
  _mouseEventWidget : Ptr
  eventFilters : List Nat
  calls : List Call

/-- The pointer `widget()` returns. -/
def QWidgetProxy.widget (p : QWidgetProxy) : Ptr := p.qObject.map (fun w => w.id)

/-- What the toolkit answers to the geometry queries of `interpretMouseEvent`:
`QCursor::pos()`, `w->mapFromGlobal(pt)`, `src->mapTo(w, pt)`. -/
structure Geometry where
  cursorPos : QPoint
  mapFromGlobal : Nat → QPoint → QPoint
  mapTo : Ptr → Ptr → QPoint → QPoint

/-! ## Event interpretation -/

/-- Embedding of `QWidgetProxy::interpretMouseEvent`. -/
def interpretMouseEvent (g : Geometry) (p : QWidgetProxy) (e : QEvent)
    (args : List QVariant) : List QVariant :=
  let w := p.widget
  if e.type = QEventType.Enter then
    let pos := g.cursorPos
    let pos := match w with
      | some a => g.mapFromGlobal a pos
      | none => pos
    let args := args ++ [QVariant.int pos.x]
    args ++ [QVariant.int pos.y]
  else
    let pt := if p._mouseEventWidget = w then e.pos
              else g.mapTo p._mouseEventWidget w e.pos
    let args := args ++ [QVariant.int pt.x]
    let args := args ++ [QVariant.int pt.y]
    let args := args ++ [QVariant.int e.modifiers]
    if e.type = QEventType.MouseMove then args
    else
      let button : Int :=
        if e.button = Qt.LeftButton then 0
        else if e.button = Qt.RightButton then 1
        else if e.button = Qt.MidButton then 2
        else -1
      let args := args ++ [QVariant.int button]
      match e.type with
      | QEventType.MouseButtonPress => args ++ [QVariant.int 1]
      | QEventType.MouseButtonDblClick => args ++ [QVariant.int 2]
      | _ => args

/-- Embedding of `QWidgetProxy::interpretKeyEvent`. -/
def interpretKeyEvent (e : QEvent) (args : List QVariant) : List QVariant :=
  let text := e.text
  let unicode : Int := if text.length = 1 then (text.headD 0 : Nat) else 0
  let args := args ++ [QVariant.string text]
  let args := args ++ [QVariant.int e.modifiers]
  let args := args ++ [QVariant.int unicode]
  args ++ [QVariant.int e.key]

/-- Embedding of `QWidgetProxy::interpretEvent`; `base` is `QObjectProxy::interpretEvent`. -/
def interpretEvent (base : Ptr → QEvent → List QVariant → Bool × List QVariant)
    (g : Geometry) (p : QWidgetProxy) (o : Ptr) (e : QEvent)
    (args : List QVariant) : Bool × List QVariant :=
  match e.type with
  | QEventType.MouseButtonPress
  | QEventType.MouseMove
  | QEventType.MouseButtonRelease
  | QEventType.MouseButtonDblClick
  | QEventType.Enter =>
    if o = p._mouseEventWidget then (true, interpretMouseEvent g p e args)
    else (false, args)
  | QEventType.DragEnter
  | QEventType.DragMove
  | QEventType.Drop =>
    if o = p._mouseEventWidget then
      let pos := e.pos
      (true, args ++ [QVariant.int pos.x] ++ [QVariant.int pos.y])
    else (false, args)
  | QEventType.KeyPress
  | QEventType.KeyRelease =>
    if o = p._keyEventWidget then (true, interpretKeyEvent e args)
    else (false, args)
  | _ => base o e args

/-! ## Event filter -/

/-- One run of `eventFilter`: the value returned, the event as the run leaves
it, and the calls made to `QObjectProxy::eventFilter`. -/
structure FilterRun where
  result : Bool
  event : QEvent
  delegated : List (Ptr × QEvent)
deriving DecidableEq, Repr

/-- Embedding of `QWidgetProxy::eventFilter`; `base` is `QObjectProxy::eventFilter`, which
returns its result and the event as it leaves it. -/
def eventFilter (base : Ptr → QEvent → Bool × QEvent) (object : Ptr)
    (event : QEvent) : FilterRun :=
  let type := event.type
  let delegate : FilterRun :=
    ⟨(base object event).1, (base object event).2, [(object, event)]⟩
  if type = QEventType.DragEnter ∨ type = QEventType.DragMove
      ∨ type = QEventType.Drop then
    if ¬ ("application/supercollider" ∈ event.mimeFormats) then
      ⟨false, event, []⟩
    else if type = QEventType.DragEnter then
      ⟨true, { event with accepted := true }, []⟩
    else delegate
  else delegate

/-! ## Toolkit model -/

/-- The constant `Qt::Window`. -/
def Qt.Window : Nat := 0x00000001
/-- The constant `Qt::WindowStaysOnTopHint`. -/
def Qt.WindowStaysOnTopHint : Nat := 0x00040000
/-- The constant `Qt::WindowMinimized`. -/
def Qt.WindowMinimized : Nat := 0x00000001
/-- The constant `Qt::WindowActive`. -/
def Qt.WindowActive : Nat := 0x00000008
/-- The constant `Qt::OtherFocusReason`. -/
def Qt.OtherFocusReason : Nat := 7

/-- The operator `~` on a 32-bit flag word. -/
def complement32 (x : Nat) : Nat := (2 ^ 32 - 1) ^^^ (x % 2 ^ 32)

/-- Embedding of `QWidget::setWindowFlags`: as the source notes, setting window flags moves
the window to (0,0) and hides it. -/
def QWidget.setWindowFlags (w : QWidget) (flags : Nat) : QWidget :=
  { w with windowFlags := flags, pos := ⟨0, 0⟩, visible := false }

/-- Embedding of `QWidget::move`. -/
def QWidget.move (w : QWidget) (pos : QPoint) : QWidget := { w with pos := pos }

/-- Embedding of `QWidget::show`. -/
def QWidget.show (w : QWidget) : QWidget := { w with visible := true }

/-- Embedding of `QWidget::setWindowState`. -/
def QWidget.setWindowState (w : QWidget) (s : Nat) : QWidget :=
  { w with windowState := s }

/-- A rectangle, by its corners as `QRect` stores them. -/
structure QRect where
  x1 : Int
  y1 : Int
  x2 : Int
  y2 : Int
deriving DecidableEq, Repr

/-- Embedding of `QRect::adjusted`. -/
def QRect.adjusted (r : QRect) (dx1 dy1 dx2 dy2 : Int) : QRect :=
  ⟨r.x1 + dx1, r.y1 + dy1, r.x2 + dx2, r.y2 + dy2⟩

/-- Embedding of `QRect::width`. -/
def QRect.width (r : QRect) : Int := r.x2 - r.x1 + 1

/-- Embedding of `QRect::height`. -/
def QRect.height (r : QRect) : Int := r.y2 - r.y1 + 1

/-- Embedding of `QRect::moveTo`. -/
def QRect.moveTo (r : QRect) (x y : Int) : QRect :=
  ⟨x, y, r.x2 + (x - r.x1), r.y2 + (y - r.y1)⟩

/-- Another proxy handed to a method, as far as the method reads it:
`object()`, whether that object is a `QLayout` (what `qobject_cast` tests) and
its `isWidgetType()`. -/
structure QObjectProxy where
  object : Ptr
  isLayout : Bool
  isWidgetType : Bool
deriving DecidableEq, Repr

/-- Embedding of `QtCollider::SetFocusEvent`. -/
structure SetFocusEvent where
  focus : Bool

/-- Embedding of `QtCollider::SetAlwaysOnTopEvent`. -/
structure SetAlwaysOnTopEvent where
  alwaysOnTop : Bool

/-- Embedding of `QtCollider::StartDragEvent`. -/
structure StartDragEvent where
  label : QString

/-- Appends one toolkit call to the trace. -/
def QWidgetProxy.call (p : QWidgetProxy) (c : Call) : QWidgetProxy :=
  { p with calls := p.calls ++ [c] }

/-! ## Designated event widgets -/

/-- Embedding of `QWidgetProxy::QWidgetProxy`: both designated widgets start as the primary
widget. -/
def QWidgetProxy.new (w : Option QWidget) : QWidgetProxy :=
  { qObject := w
    _keyEventWidget := w.map (fun x => x.id)
    _mouseEventWidget := w.map (fun x => x.id)
    eventFilters := []
    calls := [] }

/-- Embedding of `w->removeEventFilter( this )`: the installation on `w`, if any, is
deleted. -/
def removeEventFilter (fs : List Nat) (w : Ptr) : List Nat :=
  match w with
  | some a => fs.filter (fun b => b ≠ a)
  | none => fs

/-- Embedding of `w->installEventFilter( this )`: an install on an already-filtered widget
keeps one installation. -/
def installEventFilter (fs : List Nat) (w : Ptr) : List Nat :=
  match w with
  | some a => a :: fs.filter (fun b => b ≠ a)
  | none => fs

/-- Embedding of `QWidgetProxy::setKeyEventWidget`. -/
def setKeyEventWidget (p : QWidgetProxy) (w : Ptr) : QWidgetProxy :=
  if w = none ∨ w = p._keyEventWidget then p
  else
    let me := p.widget
    let p1 :=
      if p._keyEventWidget ≠ me then
        { p with eventFilters := removeEventFilter p.eventFilters p._keyEventWidget }
      else p
    let p2 := { p1 with _keyEventWidget := w }
    if p2._keyEventWidget ≠ me then
      { p2 with eventFilters := installEventFilter p2.eventFilters p2._keyEventWidget }
    else p2

/-- Embedding of `QWidgetProxy::setMouseEventWidget`. -/
def setMouseEventWidget (p : QWidgetProxy) (w : Ptr) : QWidgetProxy :=
  if w = none ∨ w = p._mouseEventWidget then p
  else
    let me := p.widget
    let p1 :=
      if p._mouseEventWidget ≠ me then
        { p with eventFilters := removeEventFilter p.eventFilters p._mouseEventWidget }
      else p
    let p2 := { p1 with _mouseEventWidget := w }
    if p2._mouseEventWidget ≠ me then
      { p2 with eventFilters := installEventFilter p2.eventFilters p2._mouseEventWidget }
    else p2

/-! ## Widget operations -/

/-- Embedding of `QWidgetProxy::alwaysOnTop`. -/
def alwaysOnTop (p : QWidgetProxy) : Bool :=
  match p.qObject with
  | none => false
  | some w =>
    let flags := w.windowFlags
    if flags &&& Qt.Window ≠ 0 ∧ flags &&& Qt.WindowStaysOnTopHint ≠ 0 then true
    else false

mutual
/-- Embedding of `QWidgetProxy::sendRefreshEventRecursive`: the events sent, in order. -/
def sendRefreshEventRecursive : QObjectTree → List Call
  | QObjectTree.node id _ children =>
    Call.sendEvent id QEventType.Event_Refresh :: sendRefreshEventChildren children
/-- The `Q_FOREACH` loop of `sendRefreshEventRecursive` over the children. -/
def sendRefreshEventChildren : List QObjectTree → List Call
  | [] => []
  | QObjectTree.node id isWidgetType children :: rest =>
    (if isWidgetType then
        sendRefreshEventRecursive (QObjectTree.node id isWidgetType children)
      else []) ++ sendRefreshEventChildren rest
end

/-- Embedding of `QWidgetProxy::refresh`. -/
def refresh (p : QWidgetProxy) : QWidgetProxy :=
  match p.qObject with
  | some w =>
    { p with calls := p.calls ++ sendRefreshEventRecursive (QObjectTree.node w.id true w.children) }
  | none => p

/-- Embedding of `QWidgetProxy::setLayout`; deleting the old layout also clears the
widget's layout pointer.  Debug messages are not part of the state. -/
def setLayout (p : QWidgetProxy) (layoutProxy : QObjectProxy) : QWidgetProxy :=
  let l : Ptr := if layoutProxy.isLayout then layoutProxy.object else none
  match p.qObject, l with
  | some w, some l =>
    let exLayout := w.layout
    if exLayout ≠ some l then
      let p1 := match exLayout with
        | some ex => { p.call (Call.deleteLayout ex) with qObject := some { w with layout := none } }
        | none => p
      let p2 := { p1.call (Call.setLayout w.id l) with qObject := some { w with layout := some l } }
      p2.call (Call.activate l)
    else p
  | _, _ => p

/-- Embedding of `QWidgetProxy::setParent`; `invokeMethod pw name arg` tells whether
`pw->metaObject()->invokeMethod( pw, name, arg )` succeeds. -/
def setParent (invokeMethod : Nat → String → Nat → Bool) (p : QWidgetProxy)
    (parentProxy : QObjectProxy) : Bool × QWidgetProxy :=
  match parentProxy.object, p.qObject with
  | some parent, some w =>
    if parentProxy.isWidgetType then
      let pw := parent
      let ok := invokeMethod pw "addChild" w.id
      let p1 := p.call (Call.invokeMethod pw "addChild" w.id)
      let p2 :=
        if !ok then
          { p1.call (Call.setParent w.id pw) with qObject := some { w with parent := some pw } }
        else p1
      (true, p2)
    else (false, p)
  | _, _ => (true, p)

/-- Embedding of `QWidgetProxy::bringFrontEvent`. -/
def bringFrontEvent (p : QWidgetProxy) : QWidgetProxy :=
  match p.qObject with
  | none => p
  | some w =>
    let w1 := w.setWindowState
      ((w.windowState &&& complement32 Qt.WindowMinimized) ||| Qt.WindowActive)
    let w2 := w1.show
    { p with qObject := some w2, calls := p.calls ++ [Call.raise w.id] }

/-- Embedding of `QWidgetProxy::setFocusEvent`. -/
def setFocusEvent (p : QWidgetProxy) (e : SetFocusEvent) : QWidgetProxy :=
  match p.qObject with
  | none => p
  | some w =>
    if e.focus then
      { p with qObject := some { w with focus := true }
               calls := p.calls ++ [Call.setFocus w.id Qt.OtherFocusReason] }
    else
      { p with qObject := some { w with focus := false }
               calls := p.calls ++ [Call.clearFocus w.id] }

/-- Embedding of `QWidgetProxy::setAlwaysOnTopEvent`. -/
def setAlwaysOnTopEvent (p : QWidgetProxy) (e : SetAlwaysOnTopEvent) : QWidgetProxy :=
  match p.qObject with
  | none => p
  | some w =>
    let flags := w.windowFlags
    if flags &&& Qt.Window ≠ 0 then
      let flags :=
        if e.alwaysOnTop then flags ||| Qt.WindowStaysOnTopHint
        else flags &&& complement32 Qt.WindowStaysOnTopHint
      let pos := w.pos
      let visible := w.visible
      let w1 := w.setWindowFlags flags
      let w2 := w1.move pos
      let w3 := if visible then w2.show else w2
      { p with qObject := some w3 }
    else p

/-- Embedding of `QWidgetProxy::startDragEvent`; `boundingRect` is
`QFontMetrics::boundingRect` for the default font.  The drag executed is
recorded with its source, the formats of its mime data, the size of its pixmap
and its hot spot; what is painted on the pixmap is not recorded. -/
def startDragEvent (boundingRect : QString → QRect) (p : QWidgetProxy)
    (e : StartDragEvent) : QWidgetProxy :=
  match p.qObject with
  | none => p
  | some w =>
    let label := e.label
    let r := (boundingRect label).adjusted 0 0 4 4
    let pixSize : QPoint := ⟨r.width, r.height⟩
    let r := r.moveTo 0 0
    p.call (Call.dragExec w.id ["application/supercollider"] pixSize ⟨0, r.height + 2⟩)

/-! ## Custom painting -/

/-- The actions of `customPaint`. -/
inductive PaintAction where
  | announcePainting
  | lockLang
  | beginPainting
  | invokeScMethod
  | endPainting
  | unlockLang
deriving DecidableEq, Repr

/-- Embedding of `QWidgetProxy::customPaint`, as the trace of its actions;
`paintingAnnounced` is what `QtCollider::paintingAnnounced()` answers on entry
and `beginOk` what `QtCollider::beginPainting( painter )` returns. -/
def customPaint (paintingAnnounced : Bool) (beginOk : Bool) : List PaintAction :=
  if paintingAnnounced then []
  else
    let t := [PaintAction.announcePainting]
    let t := t ++ [PaintAction.lockLang]
    let t := t ++ [PaintAction.beginPainting]
    let t :=
      if beginOk then
        (t ++ [PaintAction.invokeScMethod]) ++ [PaintAction.endPainting]
      else t
    t ++ [PaintAction.unlockLang]

/-! ## Vocabulary of the properties -/

/-- The event types that `interpretEvent` routes by the mouse event widget. -/
def mouseRouted : List QEventType :=
  [QEventType.MouseButtonPress, QEventType.MouseMove, QEventType.MouseButtonRelease,
   QEventType.MouseButtonDblClick, QEventType.Enter, QEventType.DragEnter,
   QEventType.DragMove, QEventType.Drop]

/-- The event types that `interpretEvent` routes by the key event widget. -/
def keyRouted : List QEventType := [QEventType.KeyPress, QEventType.KeyRelease]

/-- An event with every field at its default and the given type. -/
def QEvent.ofType (t : QEventType) : QEvent :=
  { type := t, accepted := false, pos := ⟨0, 0⟩, modifiers := 0, button := 0,
    text := [], key := 0, mimeFormats := [] }

/-- A top-level window at address 1, shown at (30,40), with no children. -/
def sampleWindow : QWidget :=
  { id := 1, windowFlags := Qt.Window, windowState := 0, pos := ⟨30, 40⟩,
    visible := true, focus := false, parent := none, layout := none, children := [] }

/-- The global position of the origin of the sample widgets: the widget at
address 1 sits at (10,10), every other widget at (15,30). -/
def sampleOrigin (a : Nat) : QPoint := if a = 1 then ⟨10, 10⟩ else ⟨15, 30⟩

/-- A geometry in which the global cursor is at (100,100) and every mapping is
the translation between the origins of the widgets involved; mapping to a null
widget leaves the point as it is. -/
def sampleGeometry : Geometry :=
  { cursorPos := ⟨100, 100⟩
    mapFromGlobal := fun a pt => ⟨pt.x - (sampleOrigin a).x, pt.y - (sampleOrigin a).y⟩
    mapTo := fun src dst pt =>
      match src, dst with
      | some m, some w =>
        ⟨pt.x + (sampleOrigin m).x - (sampleOrigin w).x,
         pt.y + (sampleOrigin m).y - (sampleOrigin w).y⟩
      | _, _ => pt }

/-- A base `interpretEvent` that handles nothing. -/
def sampleBaseInterpret : Ptr → QEvent → List QVariant → Bool × List QVariant :=
  fun _ _ args => (false, args)

/-- A base `eventFilter` that handles nothing. -/
def sampleBaseFilter : Ptr → QEvent → Bool × QEvent := fun _ e => (false, e)

/-- A press of the right button at (5,6) with modifier mask 3. -/
def samplePress : QEvent :=
  { QEvent.ofType QEventType.MouseButtonPress with
    pos := ⟨5, 6⟩, modifiers := 3, button := Qt.RightButton }

/-- A press of the key `a`. -/
def sampleKeyPress : QEvent :=
  { QEvent.ofType QEventType.KeyPress with text := [97], key := 65 }

/-- A `DragEnter` carrying only plain text. -/
def sampleForeignDrag : QEvent :=
  { QEvent.ofType QEventType.DragEnter with mimeFormats := ["text/plain"] }

/-- A `DragEnter` carrying SuperCollider data. -/
def sampleOwnDrag : QEvent :=
  { QEvent.ofType QEventType.DragEnter with mimeFormats := ["application/supercollider"] }

/-- A proxy whose primary widget has been destroyed, after earlier activity. -/
def sampleDestroyed : QWidgetProxy :=
  { qObject := none, _keyEventWidget := some 2, _mouseEventWidget := some 3,
    eventFilters := [3, 2], calls := [Call.raise 1] }

/-- A parent proxy whose object exists and is not a widget. -/
def sampleNonWidgetParent : QObjectProxy :=
  { object := some 5, isLayout := true, isWidgetType := false }

/-- A parent proxy whose object is the widget at address 8. -/
def sampleWidgetParent : QObjectProxy :=
  { object := some 8, isLayout := false, isWidgetType := true }

/-- A toolkit in which no object has an invokable `addChild`. -/
def sampleNoAddChild : Nat → String → Nat → Bool := fun _ _ _ => false

/-- Whether the interpreter lock is held after a trace that starts with the
lock free. -/
def lockHeld (t : List PaintAction) : Bool :=
  t.foldl (fun held a =>
    match a with
    | PaintAction.lockLang => true
    | PaintAction.unlockLang => false
    | _ => held) false

/-- A call of one of the two setters of the designated event widgets. -/
inductive EventWidgetCall where
  | setKeyEventWidget (w : Ptr)
  | setMouseEventWidget (w : Ptr)
deriving DecidableEq, Repr

/-- Runs a sequence of setter calls, first to last. -/
def runEventWidgetCalls (p : QWidgetProxy) (cs : List EventWidgetCall) : QWidgetProxy :=
  cs.foldl (fun q c =>
    match c with
    | EventWidgetCall.setKeyEventWidget w => setKeyEventWidget q w
    | EventWidgetCall.setMouseEventWidget w => setMouseEventWidget q w) p

/-- The proxy is installed as an event filter on the widget `w` points to. -/
def filterInstalledOn (p : QWidgetProxy) (w : Ptr) : Prop :=
  match w with
  | some a => a ∈ p.eventFilters
  | none => False

/-- The installation invariant: the proxy is installed on the key event widget
whenever it differs from the primary widget, and on the mouse event widget
whenever it differs from the primary widget. -/
def filtersCoverDesignated (p : QWidgetProxy) : Prop :=
  (p._keyEventWidget ≠ p.widget → filterInstalledOn p p._keyEventWidget) ∧
  (p._mouseEventWidget ≠ p.widget → filterInstalledOn p p._mouseEventWidget)

/-- A plain child widget at address 4, with no window flag. -/
def sampleChild : QWidget :=
  { id := 4, windowFlags := 0, windowState := 0, pos := ⟨3, 4⟩,
    visible := true, focus := false, parent := some 1, layout := none, children := [] }

/-! ## Theorems -/

/-- C1: `interpretEvent` routes input by designated widget.  For the mouse and
drag-and-drop event types it returns true exactly when the object is the mouse
event widget, for `KeyPress` and `KeyRelease` exactly when the object is the
key event widget, and whenever it returns false for one of these types the
argument list is left unchanged. -/
theorem interpretEvent_routes
    (base : Ptr → QEvent → List QVariant → Bool × List QVariant) (g : Geometry)
    (p : QWidgetProxy) (o : Ptr) (e : QEvent) (args : List QVariant) :
    (e.type ∈ mouseRouted →
      ((interpretEvent base g p o e args).1 = true ↔ o = p._mouseEventWidget)) ∧
    (e.type ∈ keyRouted →
      ((interpretEvent base g p o e args).1 = true ↔ o = p._keyEventWidget)) ∧
    (e.type ∈ mouseRouted ++ keyRouted → (interpretEvent base g p o e args).1 = false →
      (interpretEvent base g p o e args).2 = args) := by
  obtain ⟨t, acc, pos, mods, btn, text, key, mime⟩ := e
  cases t <;> simp [interpretEvent, mouseRouted, keyRouted] <;>
    split_ifs <;> simp_all

/-- Witness of `interpretEvent_routes`: a press on the mouse event widget and a
key press on the key event widget are taken; a key press on another object is
refused and leaves the list as it is. -/
theorem interpretEvent_routes_witness :
    (samplePress.type ∈ mouseRouted ∧
      (interpretEvent sampleBaseInterpret sampleGeometry
        (QWidgetProxy.new (some sampleWindow)) (some 1) samplePress []).1 = true) ∧
    (sampleKeyPress.type ∈ keyRouted ∧
      (interpretEvent sampleBaseInterpret sampleGeometry
        (QWidgetProxy.new (some sampleWindow)) (some 1) sampleKeyPress []).1 = true) ∧
    (sampleKeyPress.type ∈ mouseRouted ++ keyRouted ∧
      (interpretEvent sampleBaseInterpret sampleGeometry
        (QWidgetProxy.new (some sampleWindow)) (some 7) sampleKeyPress []).1 = false ∧
      (interpretEvent sampleBaseInterpret sampleGeometry
        (QWidgetProxy.new (some sampleWindow)) (some 7) sampleKeyPress []).2 = []) :=
  ⟨⟨by decide,
      ((interpretEvent_routes sampleBaseInterpret sampleGeometry
        (QWidgetProxy.new (some sampleWindow)) (some 1) samplePress []).1
          (by decide)).2 rfl⟩,
    ⟨by decide,
      ((interpretEvent_routes sampleBaseInterpret sampleGeometry
        (QWidgetProxy.new (some sampleWindow)) (some 1) sampleKeyPress []).2.1
          (by decide)).2 rfl⟩,
    ⟨by decide, by decide,
      (interpretEvent_routes sampleBaseInterpret sampleGeometry
        (QWidgetProxy.new (some sampleWindow)) (some 7) sampleKeyPress []).2.2
          (by decide) (by decide)⟩⟩

/-- C3: `interpretKeyEvent` appends exactly four arguments, in this order: the
event text, the modifier bitmask, a unicode value and the key code; the unicode
value is the code unit of the only character of a text of length 1, and 0 when
the text is empty or longer than 1. -/
theorem interpretKeyEvent_args (e : QEvent) (args : List QVariant) :
    ∃ unicode : Int,
      interpretKeyEvent e args
        = args ++ [QVariant.string e.text, QVariant.int e.modifiers,
                   QVariant.int unicode, QVariant.int e.key] ∧
      (∀ c : Nat, e.text = [c] → unicode = c) ∧
      (e.text = [] ∨ 1 < e.text.length → unicode = 0) := by
  refine ⟨if e.text.length = 1 then (e.text.headD 0 : Nat) else 0, ?_, ?_, ?_⟩
  · simp [interpretKeyEvent]
  · intro c hc
    simp [hc]
  · intro h
    rcases h with h | h
    · simp [h]
    · have : e.text.length ≠ 1 := by omega
      simp [this]

/-- Witness of `interpretKeyEvent_args`: the key `a` yields its text, mask 0,
code unit 97 and key code 65. -/
theorem interpretKeyEvent_args_witness :
    interpretKeyEvent sampleKeyPress []
      = [QVariant.string [97], QVariant.int 0, QVariant.int 97, QVariant.int 65] := by
  obtain ⟨u, h, hone, _⟩ := interpretKeyEvent_args sampleKeyPress []
  have hu : u = 97 := by simpa using hone 97 rfl
  rw [h, hu]
  rfl

/-- C4: `eventFilter` does not handle drag-and-drop events without SuperCollider
data.  For a `DragEnter`, `DragMove` or `Drop` whose mime data lacks the format
`application/supercollider` it returns false, leaves the event (and so its
accepted state) as it was, and makes no call to `QObjectProxy::eventFilter`. -/
theorem eventFilter_ignores_foreign_drag (base : Ptr → QEvent → Bool × QEvent)
    (object : Ptr) (event : QEvent)
    (ht : event.type = QEventType.DragEnter ∨ event.type = QEventType.DragMove
      ∨ event.type = QEventType.Drop)
    (hm : "application/supercollider" ∉ event.mimeFormats) :
    (eventFilter base object event).result = false ∧
    (eventFilter base object event).event.accepted = event.accepted ∧
    (eventFilter base object event).event = event ∧
    (eventFilter base object event).delegated = [] := by
  simp [eventFilter, ht, hm]

/-- Witness of `eventFilter_ignores_foreign_drag`: a `DragEnter` carrying only
plain text. -/
theorem eventFilter_ignores_foreign_drag_witness :
    sampleForeignDrag.type = QEventType.DragEnter ∧
    "application/supercollider" ∉ sampleForeignDrag.mimeFormats ∧
    (eventFilter sampleBaseFilter (some 1) sampleForeignDrag).result = false ∧
    (eventFilter sampleBaseFilter (some 1) sampleForeignDrag).event.accepted
      = sampleForeignDrag.accepted ∧
    (eventFilter sampleBaseFilter (some 1) sampleForeignDrag).event = sampleForeignDrag ∧
    (eventFilter sampleBaseFilter (some 1) sampleForeignDrag).delegated = [] :=
  ⟨rfl, by decide,
    eventFilter_ignores_foreign_drag sampleBaseFilter (some 1) sampleForeignDrag
      (Or.inl rfl) (by decide)⟩

/-- C5: `eventFilter` always accepts a `DragEnter` with SuperCollider mime data:
for every object the event is marked accepted and true is returned without a
call to `QObjectProxy::eventFilter`.  For every other event that is not a
drag-and-drop event lacking the format, the result and the event are exactly
those of `QObjectProxy::eventFilter` on the same object and event, called
once. -/
theorem eventFilter_accepts_own_dragEnter (base : Ptr → QEvent → Bool × QEvent)
    (object : Ptr) (event : QEvent) :
    (event.type = QEventType.DragEnter →
      "application/supercollider" ∈ event.mimeFormats →
        (eventFilter base object event).result = true ∧
        (eventFilter base object event).event = { event with accepted := true } ∧
        (eventFilter base object event).delegated = []) ∧
    (¬ (event.type = QEventType.DragEnter ∧
          "application/supercollider" ∈ event.mimeFormats) →
      ¬ ((event.type = QEventType.DragEnter ∨ event.type = QEventType.DragMove
            ∨ event.type = QEventType.Drop) ∧
          "application/supercollider" ∉ event.mimeFormats) →
        (eventFilter base object event).result = (base object event).1 ∧
        (eventFilter base object event).event = (base object event).2 ∧
        (eventFilter base object event).delegated = [(object, event)]) := by
  constructor
  · intro ht hm
    simp [eventFilter, ht, hm]
  · intro h1 h2
    by_cases hd : event.type = QEventType.DragEnter ∨ event.type = QEventType.DragMove
        ∨ event.type = QEventType.Drop
    · have hm : "application/supercollider" ∈ event.mimeFormats := by
        by_contra hm
        exact h2 ⟨hd, hm⟩
      have hne : event.type ≠ QEventType.DragEnter := fun ht => h1 ⟨ht, hm⟩
      simp [eventFilter, hd, hm, hne]
    · simp [eventFilter, hd]

/-- Witness of `eventFilter_accepts_own_dragEnter`: a `DragEnter` carrying
SuperCollider data, arriving on an object that is no designated widget, is
accepted; a key press goes to the base class. -/
theorem eventFilter_accepts_own_dragEnter_witness :
    (sampleOwnDrag.type = QEventType.DragEnter ∧
      "application/supercollider" ∈ sampleOwnDrag.mimeFormats ∧
      (eventFilter sampleBaseFilter (some 9) sampleOwnDrag).result = true ∧
      (eventFilter sampleBaseFilter (some 9) sampleOwnDrag).event
        = { sampleOwnDrag with accepted := true } ∧
      (eventFilter sampleBaseFilter (some 9) sampleOwnDrag).delegated = []) ∧
    ((eventFilter sampleBaseFilter (some 9) sampleKeyPress).result
        = (sampleBaseFilter (some 9) sampleKeyPress).1 ∧
      (eventFilter sampleBaseFilter (some 9) sampleKeyPress).event
        = (sampleBaseFilter (some 9) sampleKeyPress).2 ∧
      (eventFilter sampleBaseFilter (some 9) sampleKeyPress).delegated
        = [(some 9, sampleKeyPress)]) :=
  ⟨⟨rfl, by decide,
      (eventFilter_accepts_own_dragEnter sampleBaseFilter (some 9) sampleOwnDrag).1
        rfl (by decide)⟩,
    (eventFilter_accepts_own_dragEnter sampleBaseFilter (some 9) sampleKeyPress).2
      (by decide) (by decide)⟩

/-- C6: every listed widget operation is a no-op once the primary widget has
been destroyed.  With `widget()` null, `alwaysOnTop` returns false, `setParent`
returns true and leaves the state as it is, and `refresh`, `setLayout`,
`bringFrontEvent`, `setFocusEvent`, `setAlwaysOnTopEvent` and `startDragEvent`
return the state unchanged: no widget state changes and the trace of toolkit
calls (events sent, drags started) gains nothing. -/
theorem destroyed_widget_noop (p : QWidgetProxy) (h : p.widget = none)
    (invokeMethod : Nat → String → Nat → Bool) (parentProxy layoutProxy : QObjectProxy)
    (fe : SetFocusEvent) (ae : SetAlwaysOnTopEvent) (boundingRect : QString → QRect)
    (de : StartDragEvent) :
    alwaysOnTop p = false ∧
    setParent invokeMethod p parentProxy = (true, p) ∧
    refresh p = p ∧
    setLayout p layoutProxy = p ∧
    bringFrontEvent p = p ∧
    setFocusEvent p fe = p ∧
    setAlwaysOnTopEvent p ae = p ∧
    startDragEvent boundingRect p de = p := by
  have hq : p.qObject = none := by
    cases hw : p.qObject with
    | none => rfl
    | some w => simp [QWidgetProxy.widget, hw] at h
  refine ⟨?_, ?_, ?_, ?_, ?_, ?_, ?_, ?_⟩
  · simp [alwaysOnTop, hq]
  · cases hp : parentProxy.object <;> simp [setParent, hq, hp]
  · simp [refresh, hq]
  · simp [setLayout, hq]
  · simp [bringFrontEvent, hq]
  · simp [setFocusEvent, hq]
  · simp [setAlwaysOnTopEvent, hq]
  · simp [startDragEvent, hq]

/-- Witness of `destroyed_widget_noop`: a proxy with a destroyed widget. -/
theorem destroyed_widget_noop_witness :
    sampleDestroyed.widget = none ∧
    alwaysOnTop sampleDestroyed = false ∧
    setParent sampleNoAddChild sampleDestroyed sampleWidgetParent = (true, sampleDestroyed) ∧
    refresh sampleDestroyed = sampleDestroyed ∧
    setLayout sampleDestroyed sampleNonWidgetParent = sampleDestroyed ∧
    bringFrontEvent sampleDestroyed = sampleDestroyed ∧
    setFocusEvent sampleDestroyed ⟨true⟩ = sampleDestroyed ∧
    setAlwaysOnTopEvent sampleDestroyed ⟨true⟩ = sampleDestroyed ∧
    startDragEvent (fun _ => ⟨0, 0, 9, 9⟩) sampleDestroyed ⟨[97]⟩ = sampleDestroyed :=
  ⟨rfl, destroyed_widget_noop sampleDestroyed rfl sampleNoAddChild sampleWidgetParent
    sampleNonWidgetParent ⟨true⟩ ⟨true⟩ (fun _ => ⟨0, 0, 9, 9⟩) ⟨[97]⟩⟩

/-- C7, as stated, fails: a parent that exists and is not a widget, handed to
a proxy whose primary widget has been destroyed, makes `setParent` return true,
not false. -/
theorem setParent_nonwidget_parent_destroyed_widget :
    sampleNonWidgetParent.object = some 5 ∧
    sampleNonWidgetParent.isWidgetType = false ∧
    (setParent sampleNoAddChild sampleDestroyed sampleNonWidgetParent).1 = true ∧
    ¬ ((setParent sampleNoAddChild sampleDestroyed sampleNonWidgetParent).1 = false) := by
  refine ⟨rfl, rfl, rfl, ?_⟩
  decide

/-- C7, amended: `setParent` is a best-effort invocation with fallback.  When
the parent object and the primary widget both exist and the parent is a widget,
the parent's `addChild` is invoked with the primary widget; if the invocation
succeeds nothing else is done, if it fails the widget's parent is set directly
to the parent widget, and in both cases true is returned.  When both exist and
the parent is not a widget, false is returned and nothing changes.  When the
parent object is null or the primary widget no longer exists, true is returned
and nothing changes. -/
theorem setParent_best_effort (invokeMethod : Nat → String → Nat → Bool)
    (p : QWidgetProxy) (parentProxy : QObjectProxy) :
    (∀ pw w, parentProxy.object = some pw → p.qObject = some w →
      parentProxy.isWidgetType = true →
        (invokeMethod pw "addChild" w.id = true →
          setParent invokeMethod p parentProxy
            = (true, { p with calls := p.calls ++ [Call.invokeMethod pw "addChild" w.id] })) ∧
        (invokeMethod pw "addChild" w.id = false →
          setParent invokeMethod p parentProxy
            = (true, { p with
                qObject := some { w with parent := some pw }
                calls := p.calls ++ [Call.invokeMethod pw "addChild" w.id]
                  ++ [Call.setParent w.id pw] }))) ∧
    (∀ pw w, parentProxy.object = some pw → p.qObject = some w →
      parentProxy.isWidgetType = false →
        setParent invokeMethod p parentProxy = (false, p)) ∧
    (parentProxy.object = none ∨ p.widget = none →
      setParent invokeMethod p parentProxy = (true, p)) := by
  refine ⟨?_, ?_, ?_⟩
  · intro pw w hp hw ht
    constructor
    · intro hok
      simp [setParent, hp, hw, ht, hok, QWidgetProxy.call]
    · intro hok
      simp [setParent, hp, hw, ht, hok, QWidgetProxy.call]
  · intro pw w hp hw ht
    simp [setParent, hp, hw, ht]
  · intro h
    rcases h with h | h
    · simp [setParent, h]
    · have hq : p.qObject = none := by
        cases hw : p.qObject with
        | none => rfl
        | some w => simp [QWidgetProxy.widget, hw] at h
      cases hp : parentProxy.object <;> simp [setParent, hq, hp]

/-- Witness of `setParent_best_effort`: a widget parent without an invokable
`addChild` receives the window by the direct `setParent` call. -/
theorem setParent_best_effort_witness :
    sampleWidgetParent.object = some 8 ∧
    (QWidgetProxy.new (some sampleWindow)).qObject = some sampleWindow ∧
    sampleWidgetParent.isWidgetType = true ∧
    sampleNoAddChild 8 "addChild" sampleWindow.id = false ∧
    setParent sampleNoAddChild (QWidgetProxy.new (some sampleWindow)) sampleWidgetParent
      = (true, { QWidgetProxy.new (some sampleWindow) with
          qObject := some { sampleWindow with parent := some 8 }
          calls := (QWidgetProxy.new (some sampleWindow)).calls
            ++ [Call.invokeMethod 8 "addChild" sampleWindow.id]
            ++ [Call.setParent sampleWindow.id 8] }) :=
  ⟨rfl, rfl, rfl, rfl,
    ((setParent_best_effort sampleNoAddChild (QWidgetProxy.new (some sampleWindow))
      sampleWidgetParent).1 8 sampleWindow rfl rfl rfl).2 rfl⟩

/-- C8: in `customPaint` the interpreter is never called without the
interpreter lock held.  (a) `invokeScMethod` occurs only with the lock held
(after `lockLang`, with `unlockLang` still to come) and only when
`beginPainting` succeeded; (b) every `lockLang` is followed by exactly one
`unlockLang`, whether or not `beginPainting` succeeds, and the lock is free at
the return; (c) when painting is already announced on entry the trace is empty.
When painting is not announced the lock is taken, and the interpreter is
called when `beginPainting` succeeds. -/
theorem customPaint_lock_discipline (paintingAnnounced beginOk : Bool) :
    (∀ i, (customPaint paintingAnnounced beginOk)[i]? = some PaintAction.invokeScMethod →
      lockHeld ((customPaint paintingAnnounced beginOk).take i) = true ∧
      PaintAction.unlockLang ∈ (customPaint paintingAnnounced beginOk).drop (i + 1) ∧
      beginOk = true) ∧
    (∀ i, (customPaint paintingAnnounced beginOk)[i]? = some PaintAction.lockLang →
      ((customPaint paintingAnnounced beginOk).drop (i + 1)).count PaintAction.unlockLang
        = 1) ∧
    lockHeld (customPaint paintingAnnounced beginOk) = false ∧
    (paintingAnnounced = true → customPaint paintingAnnounced beginOk = []) ∧
    (paintingAnnounced = false →
      PaintAction.lockLang ∈ customPaint paintingAnnounced beginOk ∧
      (beginOk = true →
        PaintAction.invokeScMethod ∈ customPaint paintingAnnounced beginOk)) := by
  cases paintingAnnounced <;> cases beginOk
  · refine ⟨?_, ?_, by decide, by decide, by decide⟩
    · intro i hi
      have hlt : i < 4 := by
        rcases List.getElem?_eq_some.mp hi with ⟨h, _⟩
        simpa [customPaint] using h
      interval_cases i <;> simp [customPaint] at hi
    · intro i hi
      have hlt : i < 4 := by
        rcases List.getElem?_eq_some.mp hi with ⟨h, _⟩
        simpa [customPaint] using h
      interval_cases i <;> first | (simp [customPaint] at hi; done) | decide
  · refine ⟨?_, ?_, by decide, by decide, by decide⟩
    · intro i hi
      have hlt : i < 6 := by
        rcases List.getElem?_eq_some.mp hi with ⟨h, _⟩
        simpa [customPaint] using h
      interval_cases i <;> first | (simp [customPaint] at hi; done) | decide
    · intro i hi
      have hlt : i < 6 := by
        rcases List.getElem?_eq_some.mp hi with ⟨h, _⟩
        simpa [customPaint] using h
      interval_cases i <;> first | (simp [customPaint] at hi; done) | decide
  · refine ⟨?_, ?_, by decide, by decide, by decide⟩
    · intro i hi
      simp [customPaint] at hi
    · intro i hi
      simp [customPaint] at hi
  · refine ⟨?_, ?_, by decide, by decide, by decide⟩
    · intro i hi
      simp [customPaint] at hi
    · intro i hi
      simp [customPaint] at hi

/-- Witness of `customPaint_lock_discipline`: in the run where painting is not
announced and `beginPainting` succeeds, the interpreter call is the fourth
action and happens with the lock held. -/
theorem customPaint_lock_discipline_witness :
    (customPaint false true)[3]? = some PaintAction.invokeScMethod ∧
    lockHeld ((customPaint false true).take 3) = true ∧
    PaintAction.unlockLang ∈ (customPaint false true).drop (3 + 1) ∧
    true = true :=
  ⟨rfl, (customPaint_lock_discipline false true).1 3 rfl⟩

/-- A word has a nonzero intersection with a one-bit mask exactly when it has
that bit. -/
theorem and_two_pow_eq_zero_iff (x k : Nat) : x &&& 2 ^ k = 0 ↔ x.testBit k = false := by
  constructor
  · intro h
    have h2 : (x &&& 2 ^ k).testBit k = false := by rw [h]; simp
    simpa [Nat.testBit_and, Nat.testBit_two_pow_self] using h2
  · intro h
    apply Nat.eq_of_testBit_eq
    intro i
    by_cases hik : k = i
    · subst hik
      simp [h]
    · simp [Nat.testBit_two_pow, hik]

/-- The complement of the stay-on-top hint has every bit of the word but bit
18. -/
theorem testBit_complement32_hint (i : Nat) (hi : i < 32) :
    (complement32 Qt.WindowStaysOnTopHint).testBit i = decide (i ≠ 18) := by
  interval_cases i <;> decide

/-- The stay-on-top hint is bit 18 alone. -/
theorem testBit_hint (i : Nat) :
    Qt.WindowStaysOnTopHint.testBit i = decide (18 = i) := by
  have : Qt.WindowStaysOnTopHint = 2 ^ 18 := by decide
  rw [this, Nat.testBit_two_pow]

/-- On a window, `setAlwaysOnTopEvent` changes the window flags and nothing
else: position and visibility are restored after `setWindowFlags`. -/
theorem setAlwaysOnTopEvent_window (p : QWidgetProxy) (w : QWidget) (b : Bool)
    (hw : p.qObject = some w) (hwin : w.windowFlags &&& Qt.Window ≠ 0) :
    setAlwaysOnTopEvent p ⟨b⟩
      = { p with qObject := some { w with windowFlags :=
            if b then w.windowFlags ||| Qt.WindowStaysOnTopHint
            else w.windowFlags &&& complement32 Qt.WindowStaysOnTopHint } } := by
  obtain ⟨id, fl, st, pos, vis, foc, par, lay, ch⟩ := w
  cases vis <;> cases b <;>
    simp_all [setAlwaysOnTopEvent, QWidget.setWindowFlags, QWidget.move, QWidget.show]

/-- C9: `setAlwaysOnTopEvent` and `alwaysOnTop` round-trip on windows and the
initial state is restored.  For an existing primary widget whose flags include
`Qt::Window`, after `setAlwaysOnTopEvent` with `alwaysOnTop = b` the query
`alwaysOnTop()` returns `b`, every flag bit of the 32-bit word other than
`WindowStaysOnTopHint` is unchanged, and position and visibility are what they
were (`setWindowFlags` moving the window to (0,0) and hiding it).  For a widget
whose flags lack `Qt::Window` the event changes nothing and `alwaysOnTop()`
returns false. -/
theorem setAlwaysOnTop_roundtrip (p : QWidgetProxy) (w : QWidget) (b : Bool)
    (hw : p.qObject = some w) :
    (w.windowFlags &&& Qt.Window ≠ 0 →
      alwaysOnTop (setAlwaysOnTopEvent p ⟨b⟩) = b ∧
      ∃ w2, (setAlwaysOnTopEvent p ⟨b⟩).qObject = some w2 ∧
        (∀ i, i < 32 → 2 ^ i ≠ Qt.WindowStaysOnTopHint →
          w2.windowFlags.testBit i = w.windowFlags.testBit i) ∧
        w2.pos = w.pos ∧ w2.visible = w.visible) ∧
    (w.windowFlags &&& Qt.Window = 0 →
      setAlwaysOnTopEvent p ⟨b⟩ = p ∧
      alwaysOnTop (setAlwaysOnTopEvent p ⟨b⟩) = false) := by
  have hW : Qt.Window = 2 ^ 0 := by decide
  have hH : Qt.WindowStaysOnTopHint = 2 ^ 18 := by decide
  constructor
  · intro hwin
    have hbit0 : w.windowFlags.testBit 0 = true := by
      have h0 := hwin
      rw [hW] at h0
      have := (and_two_pow_eq_zero_iff w.windowFlags 0).not.mp h0
      simpa using this
    rw [setAlwaysOnTopEvent_window p w b hw hwin]
    refine ⟨?_, _, rfl, ?_, rfl, rfl⟩
    · cases b
      · have hz : (w.windowFlags &&& complement32 Qt.WindowStaysOnTopHint)
            &&& Qt.WindowStaysOnTopHint = 0 := by
          have hc : (complement32 Qt.WindowStaysOnTopHint).testBit 18 = false := by decide
          rw [hH] at hc ⊢
          rw [and_two_pow_eq_zero_iff, Nat.testBit_and, hc]
          simp
        simp [alwaysOnTop, hz]
      · have h1 : (w.windowFlags ||| Qt.WindowStaysOnTopHint) &&& Qt.Window ≠ 0 := by
          rw [hW, Ne, and_two_pow_eq_zero_iff, Nat.testBit_or, hbit0]
          simp
        have h2 : (w.windowFlags ||| Qt.WindowStaysOnTopHint)
            &&& Qt.WindowStaysOnTopHint ≠ 0 := by
          rw [Ne, hH, and_two_pow_eq_zero_iff, Nat.testBit_or, Nat.testBit_two_pow_self]
          simp
        simp [alwaysOnTop, h1, h2]
    · intro i hi hne
      have hi18 : i ≠ 18 := by
        intro h
        apply hne
        rw [h, hH]
      cases b
      · simp [Nat.testBit_and, testBit_complement32_hint i hi, hi18]
      · simp [Nat.testBit_or, testBit_hint, Ne.symm hi18]
  · intro hwin
    have h1 : setAlwaysOnTopEvent p ⟨b⟩ = p := by
      simp [setAlwaysOnTopEvent, hw, hwin]
    rw [h1]
    exact ⟨rfl, by simp [alwaysOnTop, hw, hwin]⟩

/-- Witness of `setAlwaysOnTop_roundtrip`: a shown top-level window at (30,40)
is put on top, and a plain child widget is left alone. -/
theorem setAlwaysOnTop_roundtrip_witness :
    (sampleWindow.windowFlags &&& Qt.Window ≠ 0 ∧
      alwaysOnTop (setAlwaysOnTopEvent (QWidgetProxy.new (some sampleWindow)) ⟨true⟩) = true ∧
      ∃ w2, (setAlwaysOnTopEvent (QWidgetProxy.new (some sampleWindow)) ⟨true⟩).qObject
          = some w2 ∧
        (∀ i, i < 32 → 2 ^ i ≠ Qt.WindowStaysOnTopHint →
          w2.windowFlags.testBit i = sampleWindow.windowFlags.testBit i) ∧
        w2.pos = sampleWindow.pos ∧ w2.visible = sampleWindow.visible) ∧
    (sampleChild.windowFlags &&& Qt.Window = 0 ∧
      setAlwaysOnTopEvent (QWidgetProxy.new (some sampleChild)) ⟨true⟩
        = QWidgetProxy.new (some sampleChild) ∧
      alwaysOnTop (setAlwaysOnTopEvent (QWidgetProxy.new (some sampleChild)) ⟨true⟩)
        = false) :=
  ⟨⟨by decide,
      (setAlwaysOnTop_roundtrip (QWidgetProxy.new (some sampleWindow)) sampleWindow true
        rfl).1 (by decide)⟩,
    ⟨by decide,
      (setAlwaysOnTop_roundtrip (QWidgetProxy.new (some sampleChild)) sampleChild true
        rfl).2 (by decide)⟩⟩

/-- C10 fails on the code: from a fresh proxy on the widget at address 1, the
calls `setKeyEventWidget(2)`, `setMouseEventWidget(2)`, `setKeyEventWidget(3)`
leave the mouse event widget at 2, which differs from the primary widget, while
the proxy is installed as a filter on 3 only. -/
theorem eventWidget_filter_lost :
    (runEventWidgetCalls (QWidgetProxy.new (some sampleWindow))
      [EventWidgetCall.setKeyEventWidget (some 2),
       EventWidgetCall.setMouseEventWidget (some 2),
       EventWidgetCall.setKeyEventWidget (some 3)])._mouseEventWidget = some 2 ∧
    (runEventWidgetCalls (QWidgetProxy.new (some sampleWindow))
      [EventWidgetCall.setKeyEventWidget (some 2),
       EventWidgetCall.setMouseEventWidget (some 2),
       EventWidgetCall.setKeyEventWidget (some 3)]).widget = some 1 ∧
    (runEventWidgetCalls (QWidgetProxy.new (some sampleWindow))
      [EventWidgetCall.setKeyEventWidget (some 2),
       EventWidgetCall.setMouseEventWidget (some 2),
       EventWidgetCall.setKeyEventWidget (some 3)]).eventFilters = [3] ∧
    ¬ filtersCoverDesignated
      (runEventWidgetCalls (QWidgetProxy.new (some sampleWindow))
        [EventWidgetCall.setKeyEventWidget (some 2),
         EventWidgetCall.setMouseEventWidget (some 2),
         EventWidgetCall.setKeyEventWidget (some 3)]) := by
  have h1 : (runEventWidgetCalls (QWidgetProxy.new (some sampleWindow))
      [EventWidgetCall.setKeyEventWidget (some 2),
       EventWidgetCall.setMouseEventWidget (some 2),
       EventWidgetCall.setKeyEventWidget (some 3)])._mouseEventWidget = some 2 := by decide
  have h2 : (runEventWidgetCalls (QWidgetProxy.new (some sampleWindow))
      [EventWidgetCall.setKeyEventWidget (some 2),
       EventWidgetCall.setMouseEventWidget (some 2),
       EventWidgetCall.setKeyEventWidget (some 3)]).widget = some 1 := by decide
  have h3 : (runEventWidgetCalls (QWidgetProxy.new (some sampleWindow))
      [EventWidgetCall.setKeyEventWidget (some 2),
       EventWidgetCall.setMouseEventWidget (some 2),
       EventWidgetCall.setKeyEventWidget (some 3)]).eventFilters = [3] := by decide
  refine ⟨h1, h2, h3, ?_⟩
  intro hinv
  have hm := hinv.2 (by rw [h1, h2]; decide)
  rw [h1] at hm
  simp only [filterInstalledOn] at hm
  rw [h3] at hm
  simp at hm

end QtCollider
